import Mathlib

/-!
# E-Commerce FastShop — order-service verification

Shallow embedding of the order-service routes of
`src/order-service/src/index.js` (the core specified in `spec.md`):

* `POST /api/orders`            → `createOrder`
* `PUT  /api/orders/:id/status` → `setStatus`

Modelling conventions:

* Monetary values (`DECIMAL(10,2)` columns, JSON numbers) are modelled as
  exact rationals `ℚ`; the real catalog only serves 2-decimal prices and the
  service never re-rounds, so the idealization does not change observables.
* The `order_items.quantity` column is `INTEGER NOT NULL`; PostgreSQL rejects
  a non-integral parameter for it (`invalid input syntax for type integer`),
  which `pgInt` models: inserting a quantity with denominator ≠ 1 fails and
  the surrounding transaction rolls back.
* The catalog service is an oracle `Int → LookupResult` describing, per
  product id, how the `axios.get` call in the creation loop ends: a 2xx
  envelope with `success: true` and a product, a 2xx envelope with
  `success: false`, a thrown HTTP error (axios throws on any non-2xx status,
  e.g. 404 or 500), or a thrown transport/timeout error.
* The SQL transaction is modelled by returning the unchanged store on every
  `ROLLBACK` path and the fully-updated store on `COMMIT`.
* `CURRENT_TIMESTAMP` is the store's `now` field.
-/

set_option autoImplicit false

namespace FastShop

/-- A catalog product as serialized by the product service
(`products` table: id, name, price `DECIMAL(10,2)`, stock). -/
structure Product where
  id : Nat
  name : String
  price : ℚ
  stock : Int
  deriving DecidableEq

/-- Outcome of the `axios.get(PRODUCT_SERVICE_URL + "/api/products/" + id)`
call made for one requested item (order-service lines 215-217).  axios
resolves only on 2xx, so a 404/5xx status and a network/timeout failure both
surface as thrown errors in the `catch` block. -/
inductive LookupResult where
  /-- 2xx response whose body has `success: true` and a product payload. -/
  | envOk (product : Product)
  /-- 2xx response whose body has `success: false`. -/
  | envFail
  /-- non-2xx HTTP status (404 not found, 5xx, ...): axios throws. -/
  | httpError (status : Nat)
  /-- transport-level failure (connection refused, timeout): axios throws. -/
  | netError
  deriving DecidableEq

/-- One entry of the request body's `items` array. -/
structure ReqItem where
  product_id : Int
  quantity : ℚ
  deriving DecidableEq

/-- The JSON body of `POST /api/orders`; absent fields are `none`. -/
structure CreateRequest where
  customer_name : Option String
  customer_email : Option String
  items : Option (List ReqItem)
  deriving DecidableEq

/-- An element of `validatedItems` (order-service lines 224-229): the
product-name/price snapshot taken from the catalog response. -/
structure VItem where
  product_id : Nat
  product_name : String
  quantity : ℚ
  price : ℚ
  deriving DecidableEq

/-- A row of the `orders` table. -/
structure OrderRow where
  id : Nat
  customer_name : String
  customer_email : String
  status : String
  total_amount : ℚ
  created_at : Nat
  updated_at : Nat
  deriving DecidableEq

/-- A row of the `order_items` table. -/
structure ItemRow where
  id : Nat
  order_id : Nat
  product_id : Nat
  product_name : String
  quantity : Int
  price : ℚ
  created_at : Nat
  deriving DecidableEq

/-- The order-service datastore: both tables, the `SERIAL` counters, and the
clock supplying `CURRENT_TIMESTAMP`. -/
structure Store where
  orders : List OrderRow
  order_items : List ItemRow
  nextOrderId : Nat
  nextItemId : Nat
  now : Nat
  deriving DecidableEq

/-- JavaScript falsiness of an optional string field (`!customer_name`):
absent or empty. -/
def falsyStr : Option String → Bool
  | none => true
  | some s => s == ""

/-- The `!items || items.length === 0` test. -/
def emptyItems : Option (List ReqItem) → Bool
  | none => true
  | some l => l.isEmpty

/-- HTTP outcome of `POST /api/orders`. -/
inductive HttpResponse where
  /-- 201 with the persisted order row and its item rows. -/
  | created (order : OrderRow) (items : List ItemRow)
  /-- 400 with an error message. -/
  | badRequest (error : String)
  /-- 500 with an error message. -/
  | serverError (error : String)
  deriving DecidableEq

/-- How one iteration of the creation loop (lines 213-238) treats its item:
an `envOk` response is pushed onto `validatedItems` as a snapshot, an
`envFail` response falls through the `if` silently, and a thrown error is
caught, rolling back and answering `Product <id> not found`. -/
inductive ItemOutcome where
  | validated (v : VItem)
  | skipped
  | rejected (product_id : Int)
  deriving DecidableEq

/-- One iteration of the creation loop's lookup handling. -/
def processItem (resp : LookupResult) (item : ReqItem) : ItemOutcome :=
  match resp with
  | .envOk p =>
      .validated { product_id := p.id, product_name := p.name,
                   quantity := item.quantity, price := p.price }
  | .envFail => .skipped
  | .httpError _ => .rejected item.product_id
  | .netError => .rejected item.product_id

/-- The validation loop (lines 210-238): walks the requested items, builds
`validatedItems` and `total`.  The JS loop accumulates `total` left to right;
since `ℚ` addition is associative and commutative the bracketing used here
denotes the same value. -/
def validateItems (catalog : Int → LookupResult) :
    List ReqItem → Except Int (ℚ × List VItem)
  | [] => .ok (0, [])
  | item :: rest =>
    match processItem (catalog item.product_id) item with
    | .validated v =>
      match validateItems catalog rest with
      | .ok (total, vs) => .ok (v.price * v.quantity + total, v :: vs)
      | .error pid => .error pid
    | .skipped => validateItems catalog rest
    | .rejected pid => .error pid

/-- The product ids actually sent to the catalog during the loop: one lookup
per item, stopping after the first one whose error is caught. -/
def lookupTrace (catalog : Int → LookupResult) : List ReqItem → List Int
  | [] => []
  | item :: rest =>
    item.product_id ::
      match processItem (catalog item.product_id) item with
      | .rejected _ => []
      | _ => lookupTrace catalog rest

/-- PostgreSQL coercion of a numeric parameter into an `INTEGER` column:
an integral value is stored, anything else raises
`invalid input syntax for type integer`. -/
def pgInt (q : ℚ) : Option Int :=
  if q.den = 1 then some q.num else none

/-- The item-insert loop (lines 250-256): one `INSERT INTO order_items` per
validated item; `none` models a raised statement error (which the endpoint
turns into `ROLLBACK` + 500). -/
def insertItems (nextId orderId now : Nat) : List VItem → Option (List ItemRow)
  | [] => some []
  | v :: vs =>
    match pgInt v.quantity with
    | none => none
    | some qi =>
      match insertItems (nextId + 1) orderId now vs with
      | none => none
      | some rows =>
        some ({ id := nextId, order_id := orderId, product_id := v.product_id,
                product_name := v.product_name, quantity := qi, price := v.price,
                created_at := now } :: rows)

/-- Full outcome of one `POST /api/orders` request: the HTTP response, the
store after the request, the catalog lookups that were issued, and whether
`BEGIN` was executed. -/
structure CreateResult where
  response : HttpResponse
  store : Store
  lookups : List Int
  txOpened : Bool
  deriving DecidableEq

/-- `POST /api/orders` (lines 193-282).  Field-presence validation happens
before `BEGIN` and before any lookup; the loop validates and prices items;
an order header row and the item rows are inserted and committed; any caught
lookup error rolls back with a 400 naming the product id, and a failed
insert rolls back with a 500. -/
def createOrder (req : CreateRequest) (catalog : Int → LookupResult)
    (s : Store) : CreateResult :=
  if falsyStr req.customer_name || falsyStr req.customer_email ||
      emptyItems req.items then
    { response := .badRequest "Customer name, email, and items are required",
      store := s, lookups := [], txOpened := false }
  else
    let items := req.items.getD []
    match validateItems catalog items with
    | .error pid =>
      { response := .badRequest ("Product " ++ toString pid ++ " not found"),
        store := s, lookups := lookupTrace catalog items, txOpened := true }
    | .ok (total, vs) =>
      let order : OrderRow :=
        { id := s.nextOrderId,
          customer_name := req.customer_name.getD "",
          customer_email := req.customer_email.getD "",
          status := "pending", total_amount := total,
          created_at := s.now, updated_at := s.now }
      match insertItems s.nextItemId s.nextOrderId s.now vs with
      | none =>
        { response := .serverError "Failed to create order",
          store := s, lookups := lookupTrace catalog items, txOpened := true }
      | some rows =>
        { response := .created order rows,
          store := { orders := s.orders ++ [order],
                     order_items := s.order_items ++ rows,
                     nextOrderId := s.nextOrderId + 1,
                     nextItemId := s.nextItemId + rows.length,
                     now := s.now },
          lookups := lookupTrace catalog items, txOpened := true }

/-- The `validStatuses` array of the status route (line 290). -/
def validStatuses : List String :=
  ["pending", "processing", "shipped", "delivered", "cancelled"]

/-- HTTP outcome of `PUT /api/orders/:id/status`. -/
inductive StatusResponse where
  /-- 200 with the updated order row. -/
  | ok (order : OrderRow)
  /-- 400 with an error message. -/
  | badRequest (error : String)
  /-- 404 with an error message. -/
  | notFound (error : String)
  deriving DecidableEq

/-- Full outcome of one status-update request; `queried` records whether the
`UPDATE` statement was sent to the database. -/
structure StatusResult where
  response : StatusResponse
  store : Store
  queried : Bool
  deriving DecidableEq

/-- Effect of the `UPDATE orders SET status = $1, updated_at =
CURRENT_TIMESTAMP WHERE id = $2` statement on one row. -/
def applyStatus (target : String) (now : Nat) (id : Nat) (r : OrderRow) :
    OrderRow :=
  if r.id == id then { r with status := target, updated_at := now } else r

/-- The 400 message `Status must be one of: <validStatuses joined>`. -/
def badStatusMsg : String :=
  "Status must be one of: " ++ String.intercalate ", " validStatuses

/-- `PUT /api/orders/:id/status` (lines 285-324): reject an absent or
unknown status before querying; otherwise run the `UPDATE ... RETURNING *`
and answer 404 when it matched no row, else 200 with the updated row. -/
def setStatus (id : Nat) (status : Option String) (s : Store) : StatusResult :=
  match status with
  | none => { response := .badRequest badStatusMsg, store := s, queried := false }
  | some target =>
    if validStatuses.contains target then
      let updated := s.orders.map (applyStatus target s.now id)
      match updated.find? (fun r => r.id == id) with
      | none =>
        { response := .notFound "Order not found",
          store := { s with orders := updated }, queried := true }
      | some row =>
        { response := .ok row,
          store := { s with orders := updated }, queried := true }
    else
      { response := .badRequest badStatusMsg, store := s, queried := false }

/-- `n` repetitions of the same status-update request, threading the store. -/
def applyStatusN (id : Nat) (target : String) : Nat → Store → Store
  | 0, s => s
  | n + 1, s => applyStatusN id target n (setStatus id (some target) s).store

/-- The options argument of the catalog `axios.get` call.  The source passes
only the URL (lines 215-217), so no options object — and in particular no
`timeout` — is supplied; axios then uses its default timeout of `0`,
meaning no time bound. -/
structure AxiosRequestConfig where
  timeout : Option Nat
  deriving DecidableEq

/-- The (absent) options object of the catalog lookup call. -/
def catalogLookupConfig : Option AxiosRequestConfig := none

/-- The timeout in force for each catalog lookup during order creation. -/
def catalogLookupTimeout : Option Nat :=
  match catalogLookupConfig with
  | none => none
  | some c => c.timeout

/-! ## Derived notions used to state the claims -/

/-- The lookup resolved: a 2xx envelope with `success: true`. -/
def resolves (c : LookupResult) : Bool :=
  match c with
  | .envOk _ => true
  | _ => false

/-- The lookup ended in a thrown error (non-2xx status or transport
failure) — the causes the spec calls `NotFound` and `Unavailable`. -/
def isThrow (c : LookupResult) : Bool :=
  match c with
  | .httpError _ => true
  | .netError => true
  | _ => false

/-- Catalog unit price carried by a resolved lookup. -/
def lookupPrice (c : LookupResult) : ℚ :=
  match c with
  | .envOk p => p.price
  | _ => 0

/-- Catalog product name carried by a resolved lookup. -/
def lookupName (c : LookupResult) : String :=
  match c with
  | .envOk p => p.name
  | _ => ""

/-- Catalog product id carried by a resolved lookup. -/
def lookupPid (c : LookupResult) : Nat :=
  match c with
  | .envOk p => p.id
  | _ => 0

/-- The snapshot the loop records for a resolved item. -/
def snapshot (c : LookupResult) (item : ReqItem) : VItem :=
  { product_id := lookupPid c, product_name := lookupName c,
    quantity := item.quantity, price := lookupPrice c }

/-- The requested items whose lookup resolves (the ones that survive the
validation loop). -/
def keptItems (catalog : Int → LookupResult) (l : List ReqItem) : List ReqItem :=
  l.filter (fun it => resolves (catalog it.product_id))

/-! ## Behaviour of the validation loop -/

theorem validateItems_ok_of_noThrow (catalog : Int → LookupResult)
    (l : List ReqItem)
    (h : ∀ it ∈ l, isThrow (catalog it.product_id) = false) :
    validateItems catalog l = .ok
      (((keptItems catalog l).map
          (fun it => lookupPrice (catalog it.product_id) * it.quantity)).sum,
       (keptItems catalog l).map
          (fun it => snapshot (catalog it.product_id) it)) := by
  induction l with
  | nil => simp [validateItems, keptItems]
  | cons it rest ih =>
    have hhd : isThrow (catalog it.product_id) = false := h it (by simp)
    have htl : ∀ x ∈ rest, isThrow (catalog x.product_id) = false :=
      fun x hx => h x (by simp [hx])
    cases hc : catalog it.product_id with
    | envOk p =>
      simp [validateItems, processItem, keptItems, hc, ih htl, resolves,
        snapshot, lookupPrice, lookupName, lookupPid, List.filter_cons]
    | envFail =>
      simp [validateItems, processItem, keptItems, hc, ih htl, resolves,
        List.filter_cons]
    | httpError n => rw [hc] at hhd; simp [isThrow] at hhd
    | netError => rw [hc] at hhd; simp [isThrow] at hhd

theorem validateItems_error_of_throw (catalog : Int → LookupResult)
    (l : List ReqItem)
    (h : ∃ it ∈ l, isThrow (catalog it.product_id) = true) :
    ∃ pid, pid ∈ l.map ReqItem.product_id ∧ isThrow (catalog pid) = true ∧
      validateItems catalog l = .error pid := by
  induction l with
  | nil => simp at h
  | cons it rest ih =>
    cases hc : catalog it.product_id with
    | envOk p =>
      have hrest : ∃ x ∈ rest, isThrow (catalog x.product_id) = true := by
        rcases h with ⟨x, hx, hthrow⟩
        rcases List.mem_cons.mp hx with rfl | hx
        · rw [hc] at hthrow; simp [isThrow] at hthrow
        · exact ⟨x, hx, hthrow⟩
      rcases ih hrest with ⟨pid, hmem, hthrow, herr⟩
      exact ⟨pid, by simp [hmem], hthrow,
        by simp [validateItems, processItem, hc, herr]⟩
    | envFail =>
      have hrest : ∃ x ∈ rest, isThrow (catalog x.product_id) = true := by
        rcases h with ⟨x, hx, hthrow⟩
        rcases List.mem_cons.mp hx with rfl | hx
        · rw [hc] at hthrow; simp [isThrow] at hthrow
        · exact ⟨x, hx, hthrow⟩
      rcases ih hrest with ⟨pid, hmem, hthrow, herr⟩
      exact ⟨pid, by simp [hmem], hthrow,
        by simp [validateItems, processItem, hc, herr]⟩
    | httpError n =>
      exact ⟨it.product_id, by simp, by rw [hc]; simp [isThrow],
        by simp [validateItems, processItem, hc]⟩
    | netError =>
      exact ⟨it.product_id, by simp, by rw [hc]; simp [isThrow],
        by simp [validateItems, processItem, hc]⟩

/-! ## Behaviour of the item-insert loop -/

theorem rat_cast_num_of_den_one (q : ℚ) (h : q.den = 1) : (q.num : ℚ) = q := by
  have := Rat.num_div_den q
  rw [h] at this
  simpa using this

theorem insertItems_some_spec (vs : List VItem) :
    ∀ (nextId orderId now : Nat) (rows : List ItemRow),
    insertItems nextId orderId now vs = some rows →
      rows.map ItemRow.product_name = vs.map VItem.product_name ∧
      rows.map ItemRow.price = vs.map VItem.price ∧
      rows.map (fun r => (r.quantity : ℚ)) = vs.map VItem.quantity ∧
      rows.map ItemRow.product_id = vs.map VItem.product_id ∧
      rows.map ItemRow.order_id = vs.map (fun _ => orderId) ∧
      rows.length = vs.length := by
  induction vs with
  | nil =>
    intro nextId orderId now rows h
    simp [insertItems] at h
    simp [h.symm]
  | cons v vs ih =>
    intro nextId orderId now rows h
    simp only [insertItems] at h
    cases hq : pgInt v.quantity with
    | none => rw [hq] at h; simp at h
    | some qi =>
      rw [hq] at h
      cases hrec : insertItems (nextId + 1) orderId now vs with
      | none => rw [hrec] at h; simp at h
      | some rows0 =>
        rw [hrec] at h
        simp only [Option.some.injEq] at h
        rcases ih (nextId + 1) orderId now rows0 hrec with
          ⟨h1, h2, h3, h4, h5, h6⟩
        have hqi : (qi : ℚ) = v.quantity := by
          unfold pgInt at hq
          by_cases hd : v.quantity.den = 1
          · rw [if_pos hd] at hq
            cases hq
            exact rat_cast_num_of_den_one v.quantity hd
          · rw [if_neg hd] at hq; cases hq
        subst h
        simp [h1, h2, h3, h4, h5, h6, hqi]

theorem insertItems_isSome_of_int (vs : List VItem)
    (h : ∀ v ∈ vs, (VItem.quantity v).den = 1) :
    ∀ (nextId orderId now : Nat),
      (insertItems nextId orderId now vs).isSome = true := by
  induction vs with
  | nil => intro nextId orderId now; simp [insertItems]
  | cons v vs ih =>
    intro nextId orderId now
    have hv : (VItem.quantity v).den = 1 := h v (by simp)
    have htl : ∀ x ∈ vs, (VItem.quantity x).den = 1 :=
      fun x hx => h x (by simp [hx])
    have := ih htl (nextId + 1) orderId now
    cases hrec : insertItems (nextId + 1) orderId now vs with
    | none => rw [hrec] at this; simp at this
    | some rows0 => simp [insertItems, pgInt, hv, hrec]

theorem insertItems_none_of_nonint (vs : List VItem)
    (h : ∃ v ∈ vs, (VItem.quantity v).den ≠ 1) :
    ∀ (nextId orderId now : Nat),
      insertItems nextId orderId now vs = none := by
  induction vs with
  | nil => simp at h
  | cons v vs ih =>
    intro nextId orderId now
    by_cases hv : (VItem.quantity v).den = 1
    · have hrest : ∃ x ∈ vs, (VItem.quantity x).den ≠ 1 := by
        rcases h with ⟨x, hx, hbad⟩
        rcases List.mem_cons.mp hx with rfl | hx
        · exact absurd hv hbad
        · exact ⟨x, hx, hbad⟩
      simp [insertItems, pgInt, hv, ih hrest (nextId + 1) orderId now]
    · simp [insertItems, pgInt, hv]

/-! ## Concrete fixtures for closed statements -/

/-- A catalog product as the sample data seeds it. -/
def sampleProduct : Product :=
  { id := 1, name := "Laptop Pro 15", price := 29.99, stock := 50 }

/-- An empty order store. -/
def sampleStore : Store :=
  { orders := [], order_items := [], nextOrderId := 1, nextItemId := 1, now := 100 }

/-- A store holding one shipped order. -/
def shippedOrder : OrderRow :=
  { id := 1, customer_name := "Jane Smith", customer_email := "jane.smith@example.com",
    status := "shipped", total_amount := 89.99, created_at := 10, updated_at := 20 }

/-- A store holding `shippedOrder` and one of its item rows. -/
def shippedStore : Store :=
  { orders := [shippedOrder],
    order_items := [{ id := 1, order_id := 1, product_id := 4,
                      product_name := "Mechanical Keyboard", quantity := 1,
                      price := 89.99, created_at := 10 }],
    nextOrderId := 2, nextItemId := 2, now := 30 }

/-- A creation request with an empty customer name. -/
def missingNameReq : CreateRequest :=
  { customer_name := some "", customer_email := some "bob@example.com",
    items := some [⟨2, 1⟩] }

/-- The spec's concrete creation scenario: one item, product 1, quantity 2. -/
def aliceReq : CreateRequest :=
  { customer_name := some "Alice", customer_email := some "alice@example.com",
    items := some [⟨1, 2⟩] }

/-- The item row the concrete scenario persists. -/
def aliceRow : ItemRow :=
  { id := 1, order_id := 1, product_id := 1, product_name := "Laptop Pro 15",
    quantity := 2, price := 29.99, created_at := 100 }

/-- A creation request naming a product id absent from the catalog. -/
def unknownProductReq : CreateRequest :=
  { customer_name := some "Carol", customer_email := some "carol@example.com",
    items := some [⟨9999, 1⟩] }

/-! ## The claims -/

/-- Claim C4: the spec requires every catalog lookup issued during order
creation to be bounded by a timeout, but the source passes no options to
`axios.get`, so no timeout is in force — an unresponsive catalog blocks
order creation indefinitely.  This theorem records the code's actual
configuration: the effective lookup timeout is absent. -/
theorem catalogLookupTimeout_eq_none : catalogLookupTimeout = none := rfl

/-- Claim C5: a creation request with a missing/empty customer name,
missing/empty customer email, or missing/empty item list is answered 400
with the field-validation message, no catalog lookup is issued, no
transaction is opened, and the store is unchanged. -/
theorem createOrder_rejects_missing_fields (req : CreateRequest)
    (catalog : Int → LookupResult) (s : Store)
    (h : falsyStr req.customer_name = true ∨ falsyStr req.customer_email = true ∨
      emptyItems req.items = true) :
    (createOrder req catalog s).response =
      .badRequest "Customer name, email, and items are required" ∧
    (createOrder req catalog s).store = s ∧
    (createOrder req catalog s).lookups = [] ∧
    (createOrder req catalog s).txOpened = false := by
  have hcond : (falsyStr req.customer_name || falsyStr req.customer_email ||
      emptyItems req.items) = true := by
    rcases h with h | h | h <;> simp [h]
  simp [createOrder, hcond]

/-- Witness for C5: a request with an empty customer name, a live catalog
and a non-empty item list is rejected without lookups or a transaction. -/
theorem createOrder_rejects_missing_fields_witness :
    (createOrder missingNameReq (fun _ => LookupResult.envOk sampleProduct)
        sampleStore).response =
      .badRequest "Customer name, email, and items are required" ∧
    (createOrder missingNameReq (fun _ => LookupResult.envOk sampleProduct)
        sampleStore).store = sampleStore ∧
    (createOrder missingNameReq (fun _ => LookupResult.envOk sampleProduct)
        sampleStore).lookups = [] ∧
    (createOrder missingNameReq (fun _ => LookupResult.envOk sampleProduct)
        sampleStore).txOpened = false :=
  createOrder_rejects_missing_fields _ _ _ (Or.inl rfl)

/-- Claim C6: a status update whose target is absent or not one of the five
known statuses is answered 400 with the enumerating message, the `UPDATE`
statement is never sent, and the store is unchanged. -/
theorem setStatus_rejects_unknown (id : Nat) (status : Option String) (s : Store)
    (h : ∀ target, status = some target → validStatuses.contains target = false) :
    (setStatus id status s).response = .badRequest badStatusMsg ∧
    (setStatus id status s).store = s ∧
    (setStatus id status s).queried = false := by
  cases status with
  | none => simp [setStatus]
  | some target =>
    have h' : target ∉ validStatuses := by simpa using h target rfl
    simp [setStatus, h']

/-- Witness for C6: the target `"unknown"` is rejected and the shipped
order's row is untouched. -/
theorem setStatus_rejects_unknown_witness :
    (setStatus 1 (some "unknown") shippedStore).response =
      .badRequest badStatusMsg ∧
    (setStatus 1 (some "unknown") shippedStore).store = shippedStore ∧
    (setStatus 1 (some "unknown") shippedStore).queried = false :=
  setStatus_rejects_unknown 1 (some "unknown") shippedStore
    (by intro t ht; cases ht; rfl)

/-- Claim C3 counterexample: the creation loop's `catch` does not preserve
the difference between a `NotFound` lookup (the catalog answered 404) and
an `Unavailable` lookup (transport failure): the per-item handling and the
whole endpoint produce identical results for the two causes, so the claim
that they are kept distinct is false on the code. -/
theorem lookup_failure_causes_collapsed :
    processItem (LookupResult.httpError 404) ⟨9999, 1⟩ =
      processItem LookupResult.netError ⟨9999, 1⟩ ∧
    createOrder unknownProductReq (fun _ => LookupResult.httpError 404)
        sampleStore =
      createOrder unknownProductReq (fun _ => LookupResult.netError)
        sampleStore :=
  ⟨rfl, rfl⟩

/-- Claim C3 (amended): both failure causes are order-rejection causes, but
they are not preserved as distinct results — every thrown lookup failure,
whether a non-2xx HTTP status such as 404 (`NotFound`) or a
transport/timeout failure (`Unavailable`), is handled by the same `catch`
and collapses to the same rejection naming the requested product id. -/
theorem thrown_lookup_failures_same_rejection (c : LookupResult)
    (item : ReqItem) (h : isThrow c = true) :
    processItem c item = ItemOutcome.rejected item.product_id := by
  cases c with
  | envOk p => simp [isThrow] at h
  | envFail => simp [isThrow] at h
  | httpError n => rfl
  | netError => rfl

/-- Witness for the amended C3: a transport failure for product 7 yields
the rejection naming product 7. -/
theorem thrown_lookup_failures_same_rejection_witness :
    isThrow LookupResult.netError = true ∧
    processItem LookupResult.netError ⟨7, 3⟩ = ItemOutcome.rejected 7 :=
  ⟨rfl, thrown_lookup_failures_same_rejection LookupResult.netError ⟨7, 3⟩ rfl⟩

/-- Claim C2: when the customer fields are present but some item's catalog
lookup fails as `NotFound` or `Unavailable` (a thrown error), the whole
creation is rejected with a 400 whose message names an offending product id
that really did fail, and the store is left exactly as it was — no order
row and no item rows persist. -/
theorem createOrder_rejects_on_lookup_failure (req : CreateRequest)
    (catalog : Int → LookupResult) (s : Store)
    (hname : falsyStr req.customer_name = false)
    (hemail : falsyStr req.customer_email = false)
    (hfail : ∃ it ∈ req.items.getD [], isThrow (catalog it.product_id) = true) :
    ∃ pid, pid ∈ (req.items.getD []).map ReqItem.product_id ∧
      isThrow (catalog pid) = true ∧
      (createOrder req catalog s).response =
        .badRequest ("Product " ++ toString pid ++ " not found") ∧
      (createOrder req catalog s).store = s := by
  obtain ⟨pid, hmem, hthrow, herr⟩ :=
    validateItems_error_of_throw catalog (req.items.getD []) hfail
  have hne : emptyItems req.items = false := by
    obtain ⟨x, hx, _⟩ := hfail
    cases hitems : req.items with
    | none => rw [hitems] at hx; simp at hx
    | some l =>
      rw [hitems] at hx
      cases l with
      | nil => simp at hx
      | cons a t => simp [emptyItems]
  have hcond : (falsyStr req.customer_name || falsyStr req.customer_email ||
      emptyItems req.items) = false := by simp [hname, hemail, hne]
  exact ⟨pid, hmem, hthrow, by simp [createOrder, hcond, herr],
    by simp [createOrder, hcond, herr]⟩

/-- Witness for C2: the scenario of the spec — a request naming product
9999, which the catalog answers with 404 — is rejected with the message
naming 9999 and leaves the store unchanged. -/
theorem createOrder_rejects_on_lookup_failure_witness :
    ∃ pid, pid ∈ (unknownProductReq.items.getD []).map ReqItem.product_id ∧
      isThrow ((fun _ => LookupResult.httpError 404) pid) = true ∧
      (createOrder unknownProductReq (fun _ => LookupResult.httpError 404)
          sampleStore).response =
        .badRequest ("Product " ++ toString pid ++ " not found") ∧
      (createOrder unknownProductReq (fun _ => LookupResult.httpError 404)
          sampleStore).store = sampleStore :=
  createOrder_rejects_on_lookup_failure unknownProductReq
    (fun _ => LookupResult.httpError 404) sampleStore rfl rfl
    ⟨⟨9999, 1⟩, by simp [unknownProductReq], rfl⟩

/-- Claim C1: for a valid creation request — customer fields present, items
present, and every item's lookup resolving in the catalog — any order the
endpoint returns has `total_amount` equal to the sum over the requested
items of catalog unit price times requested quantity, and the persisted
item rows carry exactly the product-name/price snapshots taken from the
catalog at creation time. -/
theorem createOrder_total_eq_sum (req : CreateRequest)
    (catalog : Int → LookupResult) (s : Store)
    (hname : falsyStr req.customer_name = false)
    (hemail : falsyStr req.customer_email = false)
    (hne : emptyItems req.items = false)
    (hres : ∀ it ∈ req.items.getD [], resolves (catalog it.product_id) = true)
    (order : OrderRow) (rows : List ItemRow)
    (hok : (createOrder req catalog s).response = .created order rows) :
    order.total_amount =
      ((req.items.getD []).map
        (fun it => lookupPrice (catalog it.product_id) * it.quantity)).sum ∧
    rows.map ItemRow.product_name =
      (req.items.getD []).map (fun it => lookupName (catalog it.product_id)) ∧
    rows.map ItemRow.price =
      (req.items.getD []).map (fun it => lookupPrice (catalog it.product_id)) ∧
    rows.map (fun r => (r.quantity : ℚ)) =
      (req.items.getD []).map ReqItem.quantity ∧
    (createOrder req catalog s).store.order_items = s.order_items ++ rows := by
  have hnothrow : ∀ it ∈ req.items.getD [],
      isThrow (catalog it.product_id) = false := by
    intro it hit
    have h := hres it hit
    cases hc : catalog it.product_id with
    | envOk p => rfl
    | envFail => rw [hc] at h; simp [resolves] at h
    | httpError n => rw [hc] at h; simp [resolves] at h
    | netError => rw [hc] at h; simp [resolves] at h
  have hkept : keptItems catalog (req.items.getD []) = req.items.getD [] :=
    List.filter_eq_self.mpr hres
  have hval := validateItems_ok_of_noThrow catalog (req.items.getD []) hnothrow
  rw [hkept] at hval
  have hcond : (falsyStr req.customer_name || falsyStr req.customer_email ||
      emptyItems req.items) = false := by simp [hname, hemail, hne]
  cases hi : insertItems s.nextItemId s.nextOrderId s.now
      ((req.items.getD []).map (fun it => snapshot (catalog it.product_id) it)) with
  | none =>
    have hbad : (createOrder req catalog s).response =
        .serverError "Failed to create order" := by
      simp [createOrder, hcond, hval, hi]
    rw [hbad] at hok
    simp at hok
  | some rows0 =>
    obtain ⟨h1, h2, h3, h4, h5, h6⟩ :=
      insertItems_some_spec _ s.nextItemId s.nextOrderId s.now rows0 hi
    simp [createOrder, hcond, hval, hi] at hok
    obtain ⟨ho, hr⟩ := hok
    subst hr
    refine ⟨?_, ?_, ?_, ?_, ?_⟩
    · rw [← ho]
    · rw [h1, List.map_map]
      exact List.map_congr_left (fun it _ => rfl)
    · rw [h2, List.map_map]
      exact List.map_congr_left (fun it _ => rfl)
    · rw [h3, List.map_map]
      exact List.map_congr_left (fun it _ => rfl)
    · simp [createOrder, hcond, hval, hi]

/-- Witness for C1: the spec's concrete scenario — one item, product 1 at
price 29.99, quantity 2 — yields total 59.98 with the snapshot row. -/
theorem createOrder_total_eq_sum_witness :
    ({ id := 1, customer_name := "Alice", customer_email := "alice@example.com",
       status := "pending", total_amount := 59.98, created_at := 100,
       updated_at := 100 } : OrderRow).total_amount =
      ((aliceReq.items.getD []).map
        (fun it => lookupPrice ((fun _ => LookupResult.envOk sampleProduct)
          it.product_id) * it.quantity)).sum ∧
    ([aliceRow] : List ItemRow).map ItemRow.product_name =
      (aliceReq.items.getD []).map
        (fun it => lookupName ((fun _ => LookupResult.envOk sampleProduct)
          it.product_id)) ∧
    ([aliceRow] : List ItemRow).map ItemRow.price =
      (aliceReq.items.getD []).map
        (fun it => lookupPrice ((fun _ => LookupResult.envOk sampleProduct)
          it.product_id)) ∧
    ([aliceRow] : List ItemRow).map (fun r => (r.quantity : ℚ)) =
      (aliceReq.items.getD []).map ReqItem.quantity ∧
    (createOrder aliceReq (fun _ => LookupResult.envOk sampleProduct)
        sampleStore).store.order_items = sampleStore.order_items ++ [aliceRow] :=
  createOrder_total_eq_sum aliceReq (fun _ => LookupResult.envOk sampleProduct)
    sampleStore rfl rfl rfl (fun it _ => rfl)
    { id := 1, customer_name := "Alice", customer_email := "alice@example.com",
      status := "pending", total_amount := 59.98, created_at := 100,
      updated_at := 100 }
    [aliceRow]
    (by
      simp [createOrder, aliceReq, sampleProduct, sampleStore, aliceRow,
        validateItems, processItem, insertItems, pgInt, falsyStr, emptyItems]
      norm_num)

/-- A creation request with a resolving product id but quantity 2.5. -/
def halfQuantityReq : CreateRequest :=
  { customer_name := some "Dave", customer_email := some "dave@example.com",
    items := some [⟨1, 2.5⟩] }

/-- Claim C8 counterexample: a request whose single product id resolves in
the catalog but whose quantity is the non-integral 2.5 does not succeed:
validation passes, but the `INTEGER` `order_items.quantity` column rejects
the value, the transaction rolls back, and the endpoint answers 500 with
nothing persisted — refuting the claim that such a request succeeds with
the quantity persisted verbatim. -/
theorem nonintegral_quantity_fails :
    (∀ it ∈ halfQuantityReq.items.getD [],
      resolves ((fun _ => LookupResult.envOk sampleProduct) it.product_id) = true) ∧
    (createOrder halfQuantityReq (fun _ => LookupResult.envOk sampleProduct)
        sampleStore).response = .serverError "Failed to create order" ∧
    (createOrder halfQuantityReq (fun _ => LookupResult.envOk sampleProduct)
        sampleStore).store = sampleStore := by
  have hden : (2.5 : ℚ).den ≠ 1 := by norm_num [Rat.den]
  refine ⟨fun it _ => rfl, ?_, ?_⟩
  · simp [createOrder, halfQuantityReq, sampleProduct, sampleStore, validateItems,
      processItem, insertItems, pgInt, falsyStr, emptyItems, hden]
  · simp [createOrder, halfQuantityReq, sampleProduct, sampleStore, validateItems,
      processItem, insertItems, pgInt, falsyStr, emptyItems, hden]

/-- Claim C8 (amended): order creation performs no positivity or
integrality check on quantities.  For a request whose product ids all
resolve: if every quantity is an integer — zero and negative included —
the request succeeds, each quantity is persisted verbatim and contributes
price × quantity to the total; if some quantity is non-integral, validation
still passes but the item insert fails on the `INTEGER` column, the
transaction rolls back, and the endpoint answers 500 with nothing
persisted. -/
theorem createOrder_no_quantity_check (req : CreateRequest)
    (catalog : Int → LookupResult) (s : Store)
    (hname : falsyStr req.customer_name = false)
    (hemail : falsyStr req.customer_email = false)
    (hne : emptyItems req.items = false)
    (hres : ∀ it ∈ req.items.getD [], resolves (catalog it.product_id) = true) :
    ((∀ it ∈ req.items.getD [], (ReqItem.quantity it).den = 1) →
      ∃ order rows,
        (createOrder req catalog s).response = .created order rows ∧
        rows.map (fun r => (r.quantity : ℚ)) =
          (req.items.getD []).map ReqItem.quantity ∧
        order.total_amount =
          ((req.items.getD []).map
            (fun it => lookupPrice (catalog it.product_id) * it.quantity)).sum ∧
        (createOrder req catalog s).store.order_items = s.order_items ++ rows) ∧
    ((∃ it ∈ req.items.getD [], (ReqItem.quantity it).den ≠ 1) →
      (createOrder req catalog s).response =
        .serverError "Failed to create order" ∧
      (createOrder req catalog s).store = s) := by
  have hnothrow : ∀ it ∈ req.items.getD [],
      isThrow (catalog it.product_id) = false := by
    intro it hit
    have h := hres it hit
    cases hc : catalog it.product_id with
    | envOk p => rfl
    | envFail => rw [hc] at h; simp [resolves] at h
    | httpError n => rw [hc] at h; simp [resolves] at h
    | netError => rw [hc] at h; simp [resolves] at h
  have hkept : keptItems catalog (req.items.getD []) = req.items.getD [] :=
    List.filter_eq_self.mpr hres
  have hval := validateItems_ok_of_noThrow catalog (req.items.getD []) hnothrow
  rw [hkept] at hval
  have hcond : (falsyStr req.customer_name || falsyStr req.customer_email ||
      emptyItems req.items) = false := by simp [hname, hemail, hne]
  constructor
  · intro hqty
    have hvsint : ∀ v ∈ (req.items.getD []).map
        (fun it => snapshot (catalog it.product_id) it),
        (VItem.quantity v).den = 1 := by
      intro v hv
      obtain ⟨it, hit, rfl⟩ := List.mem_map.mp hv
      exact hqty it hit
    have hsome := insertItems_isSome_of_int _ hvsint s.nextItemId s.nextOrderId s.now
    cases hi : insertItems s.nextItemId s.nextOrderId s.now
        ((req.items.getD []).map (fun it => snapshot (catalog it.product_id) it)) with
    | none => rw [hi] at hsome; simp at hsome
    | some rows0 =>
      obtain ⟨h1, h2, h3, h4, h5, h6⟩ :=
        insertItems_some_spec _ s.nextItemId s.nextOrderId s.now rows0 hi
      have hresp : (createOrder req catalog s).response = HttpResponse.created
          { id := s.nextOrderId, customer_name := req.customer_name.getD "",
            customer_email := req.customer_email.getD "", status := "pending",
            total_amount := ((req.items.getD []).map
                (fun it => lookupPrice (catalog it.product_id) * it.quantity)).sum,
            created_at := s.now, updated_at := s.now } rows0 := by
        simp [createOrder, hcond, hval, hi]
      refine ⟨_, rows0, hresp, ?_, rfl, ?_⟩
      · rw [h3, List.map_map]
        exact List.map_congr_left (fun it _ => rfl)
      · simp [createOrder, hcond, hval, hi]
  · intro hbad
    have hvsbad : ∃ v ∈ (req.items.getD []).map
        (fun it => snapshot (catalog it.product_id) it),
        (VItem.quantity v).den ≠ 1 := by
      obtain ⟨it, hit, hd⟩ := hbad
      exact ⟨snapshot (catalog it.product_id) it,
        List.mem_map.mpr ⟨it, hit, rfl⟩, hd⟩
    have hi := insertItems_none_of_nonint _ hvsbad s.nextItemId s.nextOrderId s.now
    exact ⟨by simp [createOrder, hcond, hval, hi],
      by simp [createOrder, hcond, hval, hi]⟩

/-- A creation request with a zero and a negative quantity. -/
def zeroNegReq : CreateRequest :=
  { customer_name := some "Eve", customer_email := some "eve@example.com",
    items := some [⟨1, 0⟩, ⟨1, -2⟩] }

/-- Witness for the amended C8: quantities 0 and -2 pass untouched — the
order is created, both quantities are persisted verbatim, and their
contributions are part of the total. -/
theorem createOrder_no_quantity_check_witness :
    ∃ order rows,
      (createOrder zeroNegReq (fun _ => LookupResult.envOk sampleProduct)
          sampleStore).response = .created order rows ∧
      rows.map (fun r => (r.quantity : ℚ)) =
        (zeroNegReq.items.getD []).map ReqItem.quantity ∧
      order.total_amount =
        ((zeroNegReq.items.getD []).map
          (fun it => lookupPrice ((fun _ => LookupResult.envOk sampleProduct)
            it.product_id) * it.quantity)).sum ∧
      (createOrder zeroNegReq (fun _ => LookupResult.envOk sampleProduct)
          sampleStore).store.order_items = sampleStore.order_items ++ rows :=
  (createOrder_no_quantity_check zeroNegReq
      (fun _ => LookupResult.envOk sampleProduct) sampleStore rfl rfl rfl
      (fun it _ => rfl)).1
    (by
      intro it hit
      simp [zeroNegReq] at hit
      rcases hit with rfl | rfl
      · rfl
      · norm_num [Rat.den])

/-- A creation request whose single item the catalog will answer with a
`success: false` envelope. -/
def skipAllReq : CreateRequest :=
  { customer_name := some "Frank", customer_email := some "frank@example.com",
    items := some [⟨3, 4⟩] }

/-- Claim C9: when the customer fields are present, no lookup throws, but
at least one item's 2xx envelope has `success: false`, creation neither
rejects nor aborts: the order is created (201) containing only the items
whose envelope succeeded, the skipped items are absent from the rows and
from the total, and strictly fewer rows than requested items are
persisted. -/
theorem createOrder_skips_failed_envelope (req : CreateRequest)
    (catalog : Int → LookupResult) (s : Store)
    (hname : falsyStr req.customer_name = false)
    (hemail : falsyStr req.customer_email = false)
    (hne : emptyItems req.items = false)
    (hnothrow : ∀ it ∈ req.items.getD [],
      isThrow (catalog it.product_id) = false)
    (hqty : ∀ it ∈ keptItems catalog (req.items.getD []),
      (ReqItem.quantity it).den = 1)
    (hskip : ∃ it ∈ req.items.getD [],
      catalog it.product_id = LookupResult.envFail) :
    ∃ order rows,
      (createOrder req catalog s).response = .created order rows ∧
      order.total_amount =
        ((keptItems catalog (req.items.getD [])).map
          (fun it => lookupPrice (catalog it.product_id) * it.quantity)).sum ∧
      rows.length = (keptItems catalog (req.items.getD [])).length ∧
      rows.length < (req.items.getD []).length ∧
      rows.map ItemRow.product_name =
        (keptItems catalog (req.items.getD [])).map
          (fun it => lookupName (catalog it.product_id)) ∧
      (createOrder req catalog s).store.order_items = s.order_items ++ rows ∧
      order ∈ (createOrder req catalog s).store.orders := by
  have hval := validateItems_ok_of_noThrow catalog (req.items.getD []) hnothrow
  have hcond : (falsyStr req.customer_name || falsyStr req.customer_email ||
      emptyItems req.items) = false := by simp [hname, hemail, hne]
  have hvsint : ∀ v ∈ (keptItems catalog (req.items.getD [])).map
      (fun it => snapshot (catalog it.product_id) it),
      (VItem.quantity v).den = 1 := by
    intro v hv
    obtain ⟨it, hit, rfl⟩ := List.mem_map.mp hv
    exact hqty it hit
  have hsome := insertItems_isSome_of_int _ hvsint s.nextItemId s.nextOrderId s.now
  cases hi : insertItems s.nextItemId s.nextOrderId s.now
      ((keptItems catalog (req.items.getD [])).map
        (fun it => snapshot (catalog it.product_id) it)) with
  | none => rw [hi] at hsome; simp at hsome
  | some rows0 =>
    obtain ⟨h1, h2, h3, h4, h5, h6⟩ :=
      insertItems_some_spec _ s.nextItemId s.nextOrderId s.now rows0 hi
    have hlen : rows0.length = (keptItems catalog (req.items.getD [])).length := by
      rw [h6, List.length_map]
    have hlt : (keptItems catalog (req.items.getD [])).length <
        (req.items.getD []).length := by
      obtain ⟨it, hit, hc⟩ := hskip
      exact List.length_filter_lt_length_iff_exists.mpr
        ⟨it, hit, by simp [hc, resolves]⟩
    have hresp : (createOrder req catalog s).response = HttpResponse.created
        { id := s.nextOrderId, customer_name := req.customer_name.getD "",
          customer_email := req.customer_email.getD "", status := "pending",
          total_amount := ((keptItems catalog (req.items.getD [])).map
              (fun it => lookupPrice (catalog it.product_id) * it.quantity)).sum,
          created_at := s.now, updated_at := s.now } rows0 := by
      simp [createOrder, hcond, hval, hi]
    refine ⟨_, rows0, hresp, rfl, ?_, ?_, ?_, ?_, ?_⟩
    · exact hlen
    · rw [hlen]; exact hlt
    · rw [h1, List.map_map]
      exact List.map_congr_left (fun it _ => rfl)
    · simp [createOrder, hcond, hval, hi]
    · simp [createOrder, hcond, hval, hi]

/-- Witness for C9: every item of the request is answered `success: false`,
and an order with zero line items and total 0 is persisted and reported as
success. -/
theorem createOrder_skips_failed_envelope_witness :
    ∃ order rows,
      (createOrder skipAllReq (fun _ => LookupResult.envFail)
          sampleStore).response = .created order rows ∧
      order.total_amount =
        ((keptItems (fun _ => LookupResult.envFail) (skipAllReq.items.getD [])).map
          (fun it => lookupPrice ((fun _ => LookupResult.envFail) it.product_id) *
            it.quantity)).sum ∧
      rows.length =
        (keptItems (fun _ => LookupResult.envFail)
          (skipAllReq.items.getD [])).length ∧
      rows.length < (skipAllReq.items.getD []).length ∧
      rows.map ItemRow.product_name =
        (keptItems (fun _ => LookupResult.envFail) (skipAllReq.items.getD [])).map
          (fun it => lookupName ((fun _ => LookupResult.envFail) it.product_id)) ∧
      (createOrder skipAllReq (fun _ => LookupResult.envFail)
          sampleStore).store.order_items = sampleStore.order_items ++ rows ∧
      order ∈ (createOrder skipAllReq (fun _ => LookupResult.envFail)
          sampleStore).store.orders :=
  createOrder_skips_failed_envelope skipAllReq (fun _ => LookupResult.envFail)
    sampleStore rfl rfl rfl (fun it _ => rfl)
    (by intro it hit; simp [keptItems, resolves, skipAllReq] at hit)
    ⟨⟨3, 4⟩, by simp [skipAllReq], rfl⟩

/-! ## Behaviour of the status update -/

theorem applyStatus_id_eq (target : String) (now id : Nat) (r : OrderRow) :
    (applyStatus target now id r).id = r.id := by
  unfold applyStatus
  split <;> rfl

theorem find?_map_applyStatus (target : String) (now id : Nat)
    (l : List OrderRow) :
    (l.map (applyStatus target now id)).find? (fun r => r.id == id) =
      (l.find? (fun r => r.id == id)).map (applyStatus target now id) := by
  induction l with
  | nil => rfl
  | cons r t ih =>
    have hr2 : ((applyStatus target now id r).id == id) = (r.id == id) := by
      rw [applyStatus_id_eq]
    cases hr : (r.id == id) with
    | true =>
      have h2 : ((applyStatus target now id r).id == id) = true := by
        rw [hr2, hr]
      simp [List.find?_cons, hr, h2]
    | false =>
      have h2 : ((applyStatus target now id r).id == id) = false := by
        rw [hr2, hr]
      simp [List.find?_cons, hr, h2, ih]

theorem applyStatus_idem (target : String) (now id : Nat) (r : OrderRow) :
    applyStatus target now id (applyStatus target now id r) =
      applyStatus target now id r := by
  unfold applyStatus
  cases hr : (r.id == id) with
  | true => simp [hr]
  | false => simp [hr]

theorem setStatus_store_of_valid (id : Nat) (target : String) (s : Store)
    (hv : validStatuses.contains target = true) :
    (setStatus id (some target) s).store =
      { s with orders := s.orders.map (applyStatus target s.now id) } := by
  simp only [setStatus, hv, if_true]
  split <;> rfl

theorem setStatus_store_idem (id : Nat) (target : String) (s : Store)
    (hv : validStatuses.contains target = true) :
    (setStatus id (some target) (setStatus id (some target) s).store).store =
      (setStatus id (some target) s).store := by
  rw [setStatus_store_of_valid id target s hv,
    setStatus_store_of_valid id target _ hv]
  simp only [List.map_map, Store.mk.injEq, and_true, true_and]
  exact List.map_congr_left (fun r _ => applyStatus_idem target s.now id r)

theorem applyStatusN_succ_eq (id : Nat) (target : String) (s : Store)
    (hv : validStatuses.contains target = true) :
    ∀ n, applyStatusN id target (n + 1) s = (setStatus id (some target) s).store := by
  intro n
  induction n generalizing s with
  | zero => rfl
  | succ n ih =>
    calc applyStatusN id target (n + 1 + 1) s
        = applyStatusN id target (n + 1) (setStatus id (some target) s).store :=
          rfl
      _ = (setStatus id (some target)
            (setStatus id (some target) s).store).store := ih _
      _ = (setStatus id (some target) s).store :=
          setStatus_store_idem id target s hv

theorem setStatus_response_of_find (id : Nat) (target : String) (s : Store)
    (o : OrderRow) (hv : validStatuses.contains target = true)
    (hfind : s.orders.find? (fun r => r.id == id) = some o) :
    (setStatus id (some target) s).response =
      .ok (applyStatus target s.now id o) := by
  simp only [setStatus, hv]
  rw [find?_map_applyStatus, hfind]
  rfl

/-- Claim C7: `setStatus` is idempotent on re-application.  For an existing
order whose current status is one of the five known values, updating it to
its current status succeeds (200 with the order, only `updated_at`
refreshed), the stored status stays that value, and the identical call
repeated any number of times keeps succeeding with the same result and
never errors. -/
theorem setStatus_idempotent_reapply (id : Nat) (o : OrderRow) (s : Store)
    (hfind : s.orders.find? (fun r => r.id == id) = some o)
    (hv : validStatuses.contains o.status = true) :
    ∀ n,
      (setStatus id (some o.status) (applyStatusN id o.status n s)).response =
        .ok { o with updated_at := s.now } ∧
      (applyStatusN id o.status (n + 1) s).orders.find? (fun r => r.id == id) =
        some { o with updated_at := s.now } := by
  have hid : (o.id == id) = true := by
    have h := List.find?_some hfind
    simpa using h
  have happ : applyStatus o.status s.now id o = { o with updated_at := s.now } := by
    simp [applyStatus, hid]
  have hstore := setStatus_store_of_valid id o.status s hv
  have hfind1 : (setStatus id (some o.status) s).store.orders.find?
      (fun r => r.id == id) = some { o with updated_at := s.now } := by
    rw [hstore]
    show (s.orders.map _).find? _ = _
    rw [find?_map_applyStatus, hfind]
    simp [happ]
  have hnow1 : (setStatus id (some o.status) s).store.now = s.now := by
    rw [hstore]
  intro n
  cases n with
  | zero =>
    refine ⟨?_, ?_⟩
    · show (setStatus id (some o.status) s).response = _
      rw [setStatus_response_of_find id o.status s o hv hfind, happ]
    · show (setStatus id (some o.status) s).store.orders.find? _ = _
      exact hfind1
  | succ n =>
    have hs1 : applyStatusN id o.status (n + 1) s =
        (setStatus id (some o.status) s).store :=
      applyStatusN_succ_eq id o.status s hv n
    refine ⟨?_, ?_⟩
    · rw [hs1, setStatus_response_of_find id o.status _ _ hv hfind1, hnow1]
      have hid2 : (({ o with updated_at := s.now } : OrderRow).id == id) = true :=
        hid
      simp [applyStatus, hid2]
    · rw [applyStatusN_succ_eq id o.status s hv (n + 1)]
      exact hfind1

/-- Witness for C7: re-sending `shipped` to the already-shipped order, after
two identical calls have already been applied, still answers 200 with the
order (status `shipped`, `updated_at` refreshed) and the stored row keeps
status `shipped`. -/
theorem setStatus_idempotent_reapply_witness :
    (setStatus 1 (some "shipped")
        (applyStatusN 1 "shipped" 2 shippedStore)).response =
      .ok { shippedOrder with updated_at := shippedStore.now } ∧
    (applyStatusN 1 "shipped" 3 shippedStore).orders.find?
        (fun r => r.id == 1) =
      some { shippedOrder with updated_at := shippedStore.now } :=
  setStatus_idempotent_reapply 1 shippedOrder shippedStore rfl rfl 2

/-- Claim C10: a successful `setStatus` changes only the target order's
`status` and `updated_at` fields — its id, customer name, customer email,
total amount and creation timestamp are untouched, every other order row is
completely unchanged, and the item rows, counters and clock of the store
are untouched. -/
theorem setStatus_frame (id : Nat) (target : String) (s : Store) (o : OrderRow)
    (h : (setStatus id (some target) s).response = .ok o) :
    (setStatus id (some target) s).store.order_items = s.order_items ∧
    (setStatus id (some target) s).store.nextOrderId = s.nextOrderId ∧
    (setStatus id (some target) s).store.nextItemId = s.nextItemId ∧
    (setStatus id (some target) s).store.now = s.now ∧
    (setStatus id (some target) s).store.orders =
      s.orders.map (applyStatus target s.now id) ∧
    (∀ r : OrderRow,
      (applyStatus target s.now id r).id = r.id ∧
      (applyStatus target s.now id r).customer_name = r.customer_name ∧
      (applyStatus target s.now id r).customer_email = r.customer_email ∧
      (applyStatus target s.now id r).total_amount = r.total_amount ∧
      (applyStatus target s.now id r).created_at = r.created_at) ∧
    (∀ r : OrderRow, (r.id == id) = false → applyStatus target s.now id r = r) := by
  cases hcb : validStatuses.contains target with
  | false =>
    have hcb2 : ¬ target ∈ validStatuses := by simpa using hcb
    simp [setStatus, hcb2] at h
  | true =>
    have hstore := setStatus_store_of_valid id target s hcb
    refine ⟨by rw [hstore], by rw [hstore], by rw [hstore], by rw [hstore],
      by rw [hstore], ?_, ?_⟩
    · intro r
      unfold applyStatus
      split <;> simp
    · intro r hr
      simp [applyStatus, hr]

/-- Witness for C10: delivering the shipped order touches only that row's
status and `updated_at`; the item row and the counters survive as they
were. -/
theorem setStatus_frame_witness :
    (setStatus 1 (some "delivered") shippedStore).store.order_items =
      shippedStore.order_items ∧
    (setStatus 1 (some "delivered") shippedStore).store.nextOrderId =
      shippedStore.nextOrderId ∧
    (setStatus 1 (some "delivered") shippedStore).store.nextItemId =
      shippedStore.nextItemId ∧
    (setStatus 1 (some "delivered") shippedStore).store.now =
      shippedStore.now ∧
    (setStatus 1 (some "delivered") shippedStore).store.orders =
      shippedStore.orders.map (applyStatus "delivered" shippedStore.now 1) ∧
    (∀ r : OrderRow,
      (applyStatus "delivered" shippedStore.now 1 r).id = r.id ∧
      (applyStatus "delivered" shippedStore.now 1 r).customer_name =
        r.customer_name ∧
      (applyStatus "delivered" shippedStore.now 1 r).customer_email =
        r.customer_email ∧
      (applyStatus "delivered" shippedStore.now 1 r).total_amount =
        r.total_amount ∧
      (applyStatus "delivered" shippedStore.now 1 r).created_at =
        r.created_at) ∧
    (∀ r : OrderRow, (r.id == 1) = false →
      applyStatus "delivered" shippedStore.now 1 r = r) :=
  setStatus_frame 1 "delivered" shippedStore
    { shippedOrder with status := "delivered", updated_at := shippedStore.now }
    (by simp [setStatus, shippedStore, shippedOrder, validStatuses,
      applyStatus, List.find?])

end FastShop
